import Mathlib

/-!
Verification of the transaction-firewall repository.

Part 1 (`Api`): shallow embedding of the TypeScript analysis pipeline
(`RiskScoringService`, `TransactionAnalyzer` in
`firewall-api/src/services`): risk scoring, unlimited-approval
detection, AI-analysis gating, and warning generation.

Part 2 (`Firewall`): shallow embedding of the Solidity contract
`contracts/TransactionFirewall.sol`: the admission state machine
(`safeExecute`, `executeQueuedTransaction`, `_executeTransaction`,
`emergencyCancel`, `batchExecute`), with ETH transfers, target calls,
events and registry interactions reified as an explicit effect list.

Hex call data is modelled as the JavaScript string it is in the source
(a `List Char` beginning with the two characters `0x`), so that string
operations (`startsWith`, `slice`, `endsWith`, `length`) translate
directly.  Machine integers are `Nat` (all quantities involved are
non-negative and no overflow is reachable in the scored ranges).
-/

namespace Api

/-- `config.riskThresholds.medium` from `firewall-api/src/config`. -/
def mediumThreshold : Nat := 50

/-- `config.riskThresholds.high` from `firewall-api/src/config`. -/
def highThreshold : Nat := 75

/-- `config.riskThresholds.critical` from `firewall-api/src/config`. -/
def criticalThreshold : Nat := 90

/-- One wei-denominated ETH, `1e18`: the divisor in
`parseInt(transaction.value) / 1e18`.  Comparisons `value / 1e18 > k`
are embedded exactly as `k * 1e18 < value`. -/
def weiPerEth : Nat := 10 ^ 18

/-- The `Transaction` interface from `src/types` (`from` is renamed
`sender`, a Lean keyword; `value` holds the parsed wei amount). -/
structure Transaction where
  toAddr : List Char
  sender : List Char
  value : Nat
  data : List Char
  gas : Nat
  gasPrice : Nat
  nonce : Nat
  chainId : Nat
deriving Repr, DecidableEq

/-- The JavaScript string literal `'0x'` (empty call data). -/
def strOx : List Char := ['0', 'x']

/-- `transaction.data.slice(0, 10)` values treated as sensitive in
`calculateTransactionRiskScore`: `transfer`, `approve`,
`setApprovalForAll`. -/
def suspiciousFunctions : List (List Char) :=
  [['0', 'x', 'a', '9', '0', '5', '9', 'c', 'b', 'b'],
   ['0', 'x', '0', '9', '5', 'e', 'a', '7', 'b', '3'],
   ['0', 'x', 'a', '2', '2', 'c', 'b', '4', '6', '5']]

/-- `RiskScoringService.calculateTransactionRiskScore`.  Note the
source tests `valueInEth > 10` before `valueInEth > 100`, so the
`else if` granting `+20` is unreachable. -/
def calculateTransactionRiskScore (t : Transaction) : Nat :=
  let s1 : Nat :=
    if 10 * weiPerEth < t.value then 10
    else if 100 * weiPerEth < t.value then 20
    else 0
  let s2 : Nat := s1 + (if t.data ≠ strOx ∧ 1000 < t.data.length then 15 else 0)
  s2 + (if 10 ≤ t.data.length ∧ t.data.take 10 ∈ suspiciousFunctions then 5 else 0)

/-- `RiskScoringService.calculateGasRiskScore`. -/
def calculateGasRiskScore (gasUsed : Nat) (t : Transaction) : Nat :=
  let g1 : Nat :=
    if 500000 < gasUsed then 20
    else if 200000 < gasUsed then 10
    else 0
  g1 + (if t.data ≠ strOx ∧ 10 < t.data.length ∧ gasUsed < 50000 then 15 else 0)

/-- The `RiskFactors` interface from `RiskScoringService`. -/
structure RiskFactors where
  isKnownScam : Bool
  hasSuspiciousCode : Bool
  hasUnlimitedApprovals : Bool
  isNewContract : Bool
  simulationFailed : Bool
  aiRiskScore : Nat
  gasUsage : Nat
  transaction : Transaction
deriving Repr

/-- `RiskScoringService.calculateRiskScore`: fixed-order additive
model, capped at 100 at the very end. -/
def calculateRiskScore (f : RiskFactors) : Nat :=
  let score : Nat := 0
  let score := score + (if f.isKnownScam then 90 else 0)
  let score := score + (if f.hasSuspiciousCode then 60 else 0)
  let score := score + (if f.hasUnlimitedApprovals then 40 else 0)
  let score := score + (if f.isNewContract then 30 else 0)
  let score := score + (if f.simulationFailed then 50 else 0)
  let score := score + f.aiRiskScore
  let score := score + calculateGasRiskScore f.gasUsage f.transaction
  let score := score + calculateTransactionRiskScore f.transaction
  min score 100

inductive RiskLevel where
  | LOW | MEDIUM | HIGH | CRITICAL
deriving Repr, DecidableEq

inductive Recommendation where
  | PROCEED | CAUTION | BLOCK
deriving Repr, DecidableEq

inductive WarningType where
  | SCAM_ADDRESS | HONEYPOT | RUGPULL | PHISHING | SUSPICIOUS_CODE | UNLIMITED_APPROVAL
deriving Repr, DecidableEq

inductive Severity where
  | LOW | MEDIUM | HIGH | CRITICAL
deriving Repr, DecidableEq

/-- The `Warning` interface from `src/types`. -/
structure Warning where
  type : WarningType
  severity : Severity
  message : String
  details : String
deriving Repr, DecidableEq

/-- `TransactionAnalyzer.getRiskLevel`. -/
def getRiskLevel (riskScore : Nat) : RiskLevel :=
  if criticalThreshold ≤ riskScore then .CRITICAL
  else if highThreshold ≤ riskScore then .HIGH
  else if mediumThreshold ≤ riskScore then .MEDIUM
  else .LOW

/-- `TransactionAnalyzer.getRecommendation`: a critical warning or a
score at the critical threshold forces BLOCK. -/
def getRecommendation (riskScore : Nat) (warnings : List Warning) : Recommendation :=
  if warnings.any (fun w => w.severity == Severity.CRITICAL)
      ∨ criticalThreshold ≤ riskScore then .BLOCK
  else if mediumThreshold ≤ riskScore then .CAUTION
  else .PROCEED

/-- JavaScript `haystack.startsWith(needle)` over character lists. -/
def hasLead (pat s : List Char) : Bool :=
  match pat, s with
  | [], _ => true
  | p :: ps, c :: cs => p == c && hasLead ps cs
  | _, _ => false

/-- JavaScript `s.endsWith('1')`. -/
def lastIsOne (s : List Char) : Bool := s.getLast? == some '1'

/-- The `'0x095ea7b3'` literal (ERC20 `approve` selector with the
`0x` the source string carries). -/
def approveSelector : List Char := ['0', 'x', '0', '9', '5', 'e', 'a', '7', 'b', '3']

/-- The `'0xa22cb465'` literal (`setApprovalForAll` selector). -/
def safaSelector : List Char := ['0', 'x', 'a', '2', '2', 'c', 'b', '4', '6', '5']

/-- `'f'.repeat(64)`: the `maxUint256` hex comparand. -/
def maxUint256Hex : List Char := List.replicate 64 'f'

/-- `TransactionAnalyzer.checkUnlimitedApprovals`.  JavaScript
`s.slice(74, 138)` is `(s.drop 74).take 64`. -/
def checkUnlimitedApprovals (data : List Char) : Bool :=
  if hasLead approveSelector data then
    ((data.drop 74).take 64) == maxUint256Hex
  else if hasLead safaSelector data then
    lastIsOne ((data.drop 74).take 64)
  else false

/-- The `AIAnalysis` interface (fields the analyzer reads). -/
structure AIAnalysis where
  contractRisk : Nat
  riskFactors : List String
  explanation : String
  confidence : Nat
deriving Repr, DecidableEq

/-- `TransactionAnalyzer.getDefaultAIAnalysis`: zero risk, zero
confidence. -/
def defaultAIAnalysis : AIAnalysis :=
  { contractRisk := 0, riskFactors := [], explanation := "AI analysis not available",
    confidence := 0 }

/-- `TransactionAnalyzer.getAIAnalysis`, with the external
`aiService.analyzeContract` response abstracted as the oracle `ai`.
The boolean records whether the audit source was invoked at all. -/
def getAIAnalysis (ai : AIAnalysis) (data : List Char) : Bool × AIAnalysis :=
  if data = strOx ∨ data.length ≤ 10 then (false, defaultAIAnalysis)
  else (true, ai)

/-- JavaScript `hay.includes(needle)` (contiguous substring test). -/
def containsSeq (needle : List Char) : List Char → Bool
  | [] => needle.isEmpty
  | c :: cs => hasLead needle (c :: cs) || containsSeq needle cs

/-- The simulation fields `generateWarnings` reads. -/
structure SimulationOutcome where
  success : Bool
  error : Option String
deriving Repr, DecidableEq

/-- The record passed to `TransactionAnalyzer.generateWarnings`. -/
structure AnalysisData where
  isKnownScam : Bool
  hasSuspiciousCode : Bool
  hasUnlimitedApprovals : Bool
  isNewContract : Bool
  simulation : SimulationOutcome
  ai : AIAnalysis
deriving Repr

/-- The scam warning literal pushed by `generateWarnings`. -/
def scamWarning : Warning :=
  { type := .SCAM_ADDRESS, severity := .CRITICAL,
    message := "Known scam address detected",
    details := "This address has been reported as a scam by multiple sources. Proceeding with this transaction will likely result in loss of funds." }

/-- The honeypot warning literal. -/
def honeypotWarning : Warning :=
  { type := .HONEYPOT, severity := .HIGH,
    message := "Transaction will fail",
    details := "This transaction is likely a honeypot - it allows you to buy but prevents you from selling." }

/-- The unlimited-approval warning literal. -/
def unlimitedApprovalWarning : Warning :=
  { type := .UNLIMITED_APPROVAL, severity := .HIGH,
    message := "Unlimited token approval detected",
    details := "This transaction grants unlimited access to your tokens. The contract can drain your entire balance." }

/-- The AI-findings warning (details interpolate the risk factors). -/
def suspiciousCodeWarning (riskFactors : List String) : Warning :=
  { type := .SUSPICIOUS_CODE, severity := .MEDIUM,
    message := "Suspicious contract patterns detected",
    details := "AI analysis found: " ++ String.intercalate ", " riskFactors }

/-- The new-contract warning literal (typed `SUSPICIOUS_CODE` in the
source, severity LOW). -/
def newContractWarning : Warning :=
  { type := .SUSPICIOUS_CODE, severity := .LOW,
    message := "New unverified contract",
    details := "This contract was created recently and may not have been audited." }

/-- JavaScript `simulation.error?.includes('revert')` (an absent
error field is falsy). -/
def errorMentionsRevert : Option String → Bool
  | some e => containsSeq "revert".toList e.toList
  | none => false

/-- `TransactionAnalyzer.generateWarnings`: five condition-guarded
pushes in fixed source order. -/
def generateWarnings (d : AnalysisData) : List Warning :=
  (if d.isKnownScam then [scamWarning] else [])
  ++ (if d.simulation.success = false
        ∧ errorMentionsRevert d.simulation.error = true then [honeypotWarning] else [])
  ++ (if d.hasUnlimitedApprovals then [unlimitedApprovalWarning] else [])
  ++ (if d.hasSuspiciousCode ∧ 0 < d.ai.riskFactors.length
        then [suspiciousCodeWarning d.ai.riskFactors] else [])
  ++ (if d.isNewContract then [newContractWarning] else [])

/-- Priority rank of the five warnings `generateWarnings` can emit,
in the order Scam, Honeypot, UnlimitedApproval, SuspiciousCode(AI),
NewContract (the warnings are distinguished by message). -/
def warnPrio (w : Warning) : Nat :=
  if w.message = "Known scam address detected" then 0
  else if w.message = "Transaction will fail" then 1
  else if w.message = "Unlimited token approval detected" then 2
  else if w.message = "Suspicious contract patterns detected" then 3
  else 4

end Api

namespace Firewall

/-- `HIGH_RISK_THRESHOLD` in `TransactionFirewall.sol`. -/
def HIGH_RISK_THRESHOLD : Nat := 50

/-- `CRITICAL_RISK_THRESHOLD` in `TransactionFirewall.sol`. -/
def CRITICAL_RISK_THRESHOLD : Nat := 75

/-- `QUARANTINE_PERIOD` (`24 hours`, in seconds). -/
def QUARANTINE_PERIOD : Nat := 86400

/-- The keccak preimage `(msg.sender, target, data, value, nonce,
block.timestamp)` used for `txId`; keccak256 is modelled as injective,
so the preimage tuple itself serves as the identifier. -/
structure TxKey where
  sender : Nat
  target : Nat
  data : List Nat
  value : Nat
  nonce : Nat
  timestamp : Nat
deriving Repr, DecidableEq

/-- The `TransactionData` storage struct. -/
structure TransactionData where
  target : Nat
  data : List Nat
  value : Nat
  timestamp : Nat
  executed : Bool
  riskScore : Nat
deriving Repr, DecidableEq

/-- The all-zero struct a Solidity mapping yields for an absent key. -/
def emptyTx : TransactionData :=
  { target := 0, data := [], value := 0, timestamp := 0, executed := false, riskScore := 0 }

/-- The contract storage the modelled entry points touch. -/
structure FirewallState where
  pending : TxKey → TransactionData
  userNonces : Nat → Nat
  emergencyBlocked : Nat → Bool
  emergencyMode : Bool

/-- Fresh post-constructor storage. -/
def initialState : FirewallState :=
  { pending := fun _ => emptyTx, userNonces := fun _ => 0,
    emergencyBlocked := fun _ => false, emergencyMode := false }

/-- The `SecurityRegistry` reads plus the outcome oracle for the
low-level `target.call` (external collaborators of the contract). -/
structure Env where
  getRiskScore : Nat → Nat
  isBlacklisted : Nat → Bool
  callSucceeds : Nat → List Nat → Nat → Bool

/-- Observable actions of one entry-point invocation, in program
order: ETH transfers (`payable(x).transfer`), the low-level target
call, `securityRegistry.recordThreatBlocked`, and the three events. -/
inductive Effect where
  | ethTransfer (recipient amount : Nat)
  | targetCall (target : Nat) (data : List Nat) (value : Nat)
  | threatBlocked (user : Nat)
  | evQueued (txId : TxKey) (user target riskScore : Nat)
  | evExecuted (txId : TxKey) (user : Nat) (success : Bool)
  | evBlocked (txId : TxKey) (user target riskScore : Nat) (reason : String)
deriving Repr, DecidableEq

/-- The storage writes of `safeExecute` before it branches: increment
`userNonces[msg.sender]` (post-increment feeds the id) and record the
`TransactionData` under the new id. -/
def recordPending (st : FirewallState) (sender target : Nat) (data : List Nat)
    (value ts score : Nat) : FirewallState × TxKey :=
  let nonce := st.userNonces sender
  let key : TxKey := ⟨sender, target, data, value, nonce, ts⟩
  ({ st with
      userNonces := fun a => if a = sender then nonce + 1 else st.userNonces a,
      pending := fun k => if k = key then
          { target := target, data := data, value := value, timestamp := ts,
            executed := false, riskScore := score }
        else st.pending k },
   key)

/-- `_executeTransaction`: mark executed, perform the call, emit
`TransactionExecuted`, refund `msg.sender` if the call failed. -/
def executeTransactionInternal (env : Env) (st : FirewallState) (caller : Nat)
    (txId : TxKey) : FirewallState × List Effect :=
  let txData := st.pending txId
  let txData1 := { txData with executed := true }
  let st1 := { st with pending := fun k => if k = txId then txData1 else st.pending k }
  let success := env.callSucceeds txData.target txData.data txData.value
  (st1,
   [Effect.targetCall txData.target txData.data txData.value,
    Effect.evExecuted txId caller success]
   ++ (if success = false ∧ 0 < txData.value
         then [Effect.ethTransfer caller txData.value] else []))

/-- `safeExecute(target, data, value)` invoked by `sender` carrying
`msgValue` wei at block time `ts`.  Reverts become `Except.error` with
the source's revert string. -/
def safeExecute (env : Env) (st : FirewallState) (sender msgValue target : Nat)
    (data : List Nat) (value ts : Nat) :
    Except String (FirewallState × TxKey × List Effect) :=
  if st.emergencyBlocked sender then .error "User emergency blocked"
  else if st.emergencyMode then .error "Emergency mode active"
  else if target = 0 then .error "Invalid target address"
  else if msgValue < value then .error "Insufficient ETH sent"
  else
    let riskScore := env.getRiskScore target
    let blacklisted := env.isBlacklisted target
    let st1 := (recordPending st sender target data value ts riskScore).1
    let txId := (recordPending st sender target data value ts riskScore).2
    if blacklisted then
      .ok (st1, txId,
        [Effect.evBlocked txId sender target riskScore "Target blacklisted"]
        ++ (if 0 < msgValue then [Effect.ethTransfer sender msgValue] else []))
    else if CRITICAL_RISK_THRESHOLD ≤ riskScore then
      .ok (st1, txId,
        [Effect.evBlocked txId sender target riskScore "Critical risk level"]
        ++ (if 0 < msgValue then [Effect.ethTransfer sender msgValue] else [])
        ++ [Effect.threatBlocked sender])
    else if HIGH_RISK_THRESHOLD ≤ riskScore then
      .ok (st1, txId, [Effect.evQueued txId sender target riskScore])
    else
      .ok ((executeTransactionInternal env st1 sender txId).1, txId,
           (executeTransactionInternal env st1 sender txId).2)

/-- `executeQueuedTransaction(txId)` invoked by `caller` at block time
`now`.  The blocked branch refunds `msg.sender` and returns without
touching `txData.executed`. -/
def executeQueuedTransaction (env : Env) (st : FirewallState) (caller now : Nat)
    (txId : TxKey) : Except String (FirewallState × List Effect) :=
  let txData := st.pending txId
  if txData.timestamp = 0 then .error "Transaction not found"
  else if txData.executed then .error "Transaction already executed"
  else if now < txData.timestamp + QUARANTINE_PERIOD then
    .error "Quarantine period not over"
  else
    let currentRiskScore := env.getRiskScore txData.target
    let blacklisted := env.isBlacklisted txData.target
    if blacklisted ∨ CRITICAL_RISK_THRESHOLD ≤ currentRiskScore then
      .ok (st,
        [Effect.evBlocked txId caller txData.target currentRiskScore
           "Risk increased during quarantine"]
        ++ (if 0 < txData.value then [Effect.ethTransfer caller txData.value] else []))
    else
      .ok (executeTransactionInternal env st caller txId)

/-- `emergencyCancel(txId)` invoked by `caller`: if the re-checked
score is at least `HIGH_RISK_THRESHOLD`, mark executed, refund
`msg.sender`, emit `TransactionBlocked`, record the threat against
`msg.sender`; otherwise fall through doing nothing. -/
def emergencyCancel (env : Env) (st : FirewallState) (caller : Nat) (txId : TxKey) :
    Except String (FirewallState × List Effect) :=
  let txData := st.pending txId
  if txData.timestamp = 0 then .error "Transaction not found"
  else if txData.executed then .error "Transaction already executed"
  else
    let currentRiskScore := env.getRiskScore txData.target
    if HIGH_RISK_THRESHOLD ≤ currentRiskScore then
      let st1 := { st with pending := fun k => if k = txId then
          { txData with executed := true } else st.pending k }
      .ok (st1,
        (if 0 < txData.value then [Effect.ethTransfer caller txData.value] else [])
        ++ [Effect.evBlocked txId caller txData.target currentRiskScore
              "Emergency cancellation",
            Effect.threatBlocked caller])
    else
      .ok (st, [])

/-- The `nonReentrant` modifier of the imported OpenZeppelin
`ReentrancyGuard` wrapped around `safeExecute` (source line 60):
`entered` is the contract's `_status == _ENTERED` flag when the call
arrives.  A top-level invocation has `entered = false` and behaves as
`safeExecute`; an invocation made while another `nonReentrant`
function of the same contract is still executing — as `batchExecute`'s
`this.safeExecute` self-call is — reverts with the guard's error. -/
def safeExecuteWithGuard (entered : Bool) (env : Env) (st : FirewallState)
    (sender msgValue target : Nat) (data : List Nat) (value ts : Nat) :
    Except String (FirewallState × TxKey × List Effect) :=
  if entered then .error "ReentrancyGuard: reentrant call"
  else safeExecute env st sender msgValue target data value ts

/-- The per-item loop of `batchExecute`: each item goes through
`this.safeExecute{value: values[i]}`, an external self-call carrying
the firewall's own address `fw` as `msg.sender` and `values[i]` as
`msg.value`.  `batchExecute` is itself `nonReentrant` (source line
166) and holds the guard for its whole body, so the self-call enters
`safeExecute` with the guard already taken (`entered = true`) and
reverts; the revert is not caught and bubbles out of the loop. -/
def batchLoop (env : Env) (fw ts : Nat) :
    FirewallState → List Nat → List (List Nat) → List Nat →
    Except String (FirewallState × List TxKey × List Effect)
  | st, [], _, _ => .ok (st, [], [])
  | st, t :: targets, d :: datas, v :: values =>
      match safeExecuteWithGuard true env st fw v t d v ts with
      | .error e => .error e
      | .ok (st1, txId, effs) =>
          match batchLoop env fw ts st1 targets datas values with
          | .error e => .error e
          | .ok (st2, ids, effs2) => .ok (st2, txId :: ids, effs ++ effs2)
  | _, _ :: _, _, _ => .error "Array length mismatch"

/-- `batchExecute(targets, datas, values)` invoked top-level by
`sender` carrying `msgValue`, on a firewall deployed at address `fw`.
Its own `nonReentrant` guard is free at entry (top-level call), but it
stays taken while the loop runs, which is why `batchLoop` invokes
`safeExecuteWithGuard true`. -/
def batchExecute (env : Env) (st : FirewallState) (fw sender msgValue : Nat)
    (targets : List Nat) (datas : List (List Nat)) (values : List Nat) (ts : Nat) :
    Except String (FirewallState × List TxKey × List Effect) :=
  if st.emergencyBlocked sender then .error "User emergency blocked"
  else if st.emergencyMode then .error "Emergency mode active"
  else if ¬(targets.length = datas.length ∧ datas.length = values.length) then
    .error "Array length mismatch"
  else if 10 < targets.length then .error "Too many transactions"
  else if msgValue < values.sum then .error "Insufficient ETH sent"
  else batchLoop env fw ts st targets datas values

end Firewall

namespace Api

/-- A 200-ETH transfer with empty call data: the input on which the
value-pattern term of the scorer departs from the spec. -/
def bigValueTx : Transaction :=
  { toAddr := [], sender := [], value := 200 * weiPerEth, data := strOx,
    gas := 0, gasPrice := 0, nonce := 0, chainId := 0 }

/-- C5 counterexample: the claim says every transaction whose value
exceeds 100 ETH-equivalent receives +20 from the transaction-pattern
term; a 200-ETH transfer with empty call data receives 10, because the
source tests `valueInEth > 10` first and the `> 100` branch is
unreachable. -/
theorem c5_value_term_counterexample :
    ¬ (∀ t : Transaction, 100 * weiPerEth < t.value →
        20 ≤ calculateTransactionRiskScore t) := by
  intro h
  have h200 : (100 : Nat) * weiPerEth < bigValueTx.value := by
    norm_num [bigValueTx, weiPerEth]
  have := h bigValueTx h200
  have hval : calculateTransactionRiskScore bigValueTx = 10 := by decide
  omega

/-- C5 amended: the transaction-pattern term is exactly the sum of
+10 for value over 10 ETH-equivalent (this branch also captures every
value over 100, so +20 is never awarded), +15 for call data whose hex
string is longer than 1000 characters, and +5 for the `transfer`,
`approve` or `setApprovalForAll` selectors. -/
theorem c5_transaction_term_amended (t : Transaction) :
    calculateTransactionRiskScore t =
      (if 10 * weiPerEth < t.value then 10 else 0)
      + (if t.data ≠ strOx ∧ 1000 < t.data.length then 15 else 0)
      + (if 10 ≤ t.data.length ∧ t.data.take 10 ∈ suspiciousFunctions then 5 else 0) := by
  unfold calculateTransactionRiskScore
  by_cases h1 : 10 * weiPerEth < t.value
  · simp only [if_pos h1]
  · have h2 : ¬ 100 * weiPerEth < t.value := by
      intro h100
      exact h1 (lt_of_le_of_lt (by norm_num [weiPerEth]) h100)
    simp only [if_neg h1, if_neg h2]

/-- C6: the final risk score is capped at 100 (and is a `Nat`, hence
never negative), and no score at or above the critical threshold 90
can yield the PROCEED recommendation, whatever the warning set.
`getRiskLevel` and `getRecommendation` are functions of the score and
warning set alone, so determinism holds by construction. -/
theorem c6_score_bounded_no_proceed (f : RiskFactors) (w : List Warning) :
    calculateRiskScore f ≤ 100 ∧ 0 ≤ calculateRiskScore f ∧
    (90 ≤ calculateRiskScore f →
      getRecommendation (calculateRiskScore f) w ≠ Recommendation.PROCEED) := by
  refine ⟨Nat.min_le_right _ _, Nat.zero_le _, ?_⟩
  intro h90
  have h90c : criticalThreshold ≤ calculateRiskScore f := h90
  unfold getRecommendation
  rw [if_pos (Or.inr h90c)]
  exact fun hc => Recommendation.noConfusion hc

/-- C6 witness: a known-scam transaction with otherwise clean signals
scores exactly 90 and is not recommended PROCEED. -/
theorem c6_witness :
    getRecommendation
      (calculateRiskScore
        { isKnownScam := true, hasSuspiciousCode := false,
          hasUnlimitedApprovals := false, isNewContract := false,
          simulationFailed := false, aiRiskScore := 0, gasUsage := 0,
          transaction := { toAddr := [], sender := [], value := 0, data := strOx,
                           gas := 0, gasPrice := 0, nonce := 0, chainId := 0 } }) []
      ≠ Recommendation.PROCEED :=
  (c6_score_bounded_no_proceed _ []).2.2 (by decide)

/-- C8 counterexample: the claim says the audit source is invoked for
every call data that is non-empty and at least one 4-byte selector
long; call data consisting of exactly the `approve` selector (hex
string of length 10) satisfies that, yet the source's
`data.length <= 10` guard skips the audit. -/
theorem c8_audit_gate_counterexample :
    ¬ (∀ (a : AIAnalysis) (data : List Char),
        data ≠ [] → 10 ≤ data.length → (getAIAnalysis a data).1 = true) := by
  intro h
  have := h defaultAIAnalysis approveSelector (by decide) (by decide)
  exact absurd this (by decide)

/-- C8 amended: the audit source is invoked iff the call data hex
string is strictly longer than 10 characters (strictly more than a
bare 4-byte selector); whenever it is not invoked, the zero-risk,
zero-confidence default is used. -/
theorem c8_audit_gate_amended (a : AIAnalysis) (data : List Char) :
    ((getAIAnalysis a data).1 = true ↔ 10 < data.length) ∧
    ((getAIAnalysis a data).1 = false →
      (getAIAnalysis a data).2 = defaultAIAnalysis) := by
  unfold getAIAnalysis
  by_cases h : data = strOx ∨ data.length ≤ 10
  · rw [if_pos h]
    refine ⟨⟨fun hf => Bool.noConfusion hf, fun hlen => ?_⟩, fun _ => rfl⟩
    rcases h with h | h
    · subst h; exact absurd hlen (by decide)
    · omega
  · rw [if_neg h]
    push_neg at h
    exact ⟨⟨fun _ => h.2, fun _ => rfl⟩, fun hf => Bool.noConfusion hf⟩

/-- C8 amended witness: call data one hex character longer than a bare
selector does invoke the audit source. -/
theorem c8_audit_gate_amended_witness :
    (getAIAnalysis defaultAIAnalysis (approveSelector ++ ['0'])).1 = true :=
  (c8_audit_gate_amended defaultAIAnalysis (approveSelector ++ ['0'])).1.mpr (by decide)

end Api

namespace Api

/-- `hasLead p s` holds exactly when the first `p.length` characters
of `s` are `p` (JavaScript `startsWith`). -/
theorem hasLead_iff : ∀ (p s : List Char), hasLead p s = true ↔ s.take p.length = p
  | [], s => by simp [hasLead]
  | _ :: _, [] => by simp [hasLead]
  | a :: as, b :: bs => by
      simp only [hasLead, List.length_cons, List.take_succ_cons,
        Bool.and_eq_true, beq_iff_eq, hasLead_iff as bs, List.cons.injEq]
      constructor
      · rintro ⟨h1, h2⟩; exact ⟨h1.symm, h2⟩
      · rintro ⟨h1, h2⟩; exact ⟨h1.symm, h2⟩

/-- The sixteen lowercase hex digit characters, in value order. -/
def hexChars : List Char := "0123456789abcdef".toList

/-- Value of a lowercase hex digit (its index in `hexChars`). -/
def hexDigitVal (c : Char) : Nat := hexChars.indexOf c

/-- The numeric value of a big-endian lowercase hex string: the
reading of the claim's "amount parameter equals the maximum
representable 256-bit unsigned integer". -/
def hexVal : List Char → Nat
  | [] => 0
  | c :: cs => hexDigitVal c * 16 ^ cs.length + hexVal cs

theorem hexDigitVal_le {c : Char} (h : c ∈ hexChars) : hexDigitVal c ≤ 15 := by
  fin_cases h <;> decide

theorem hexDigitVal_eq_fifteen {c : Char} (h : c ∈ hexChars) :
    hexDigitVal c = 15 ↔ c = 'f' := by
  fin_cases h <;> simp [hexDigitVal, hexChars]

theorem hexVal_lt {s : List Char} (h : ∀ c ∈ s, c ∈ hexChars) :
    hexVal s < 16 ^ s.length := by
  induction s with
  | nil => simp [hexVal]
  | cons c cs ih =>
      have hc : hexDigitVal c ≤ 15 := hexDigitVal_le (h c (List.mem_cons_self c cs))
      have hcs := ih (fun x hx => h x (List.mem_cons_of_mem c hx))
      have hmul : hexDigitVal c * 16 ^ cs.length ≤ 15 * 16 ^ cs.length :=
        Nat.mul_le_mul_right _ hc
      simp only [hexVal, List.length_cons, pow_succ]
      omega

/-- A lowercase hex string attains the maximal value for its length
exactly when every digit is `'f'`. -/
theorem hexVal_eq_max_iff {s : List Char} (h : ∀ c ∈ s, c ∈ hexChars) :
    hexVal s = 16 ^ s.length - 1 ↔ s = List.replicate s.length 'f' := by
  induction s with
  | nil => simp [hexVal]
  | cons c cs ih =>
      have hc : hexDigitVal c ≤ 15 := hexDigitVal_le (h c (List.mem_cons_self c cs))
      have hmem : ∀ x ∈ cs, x ∈ hexChars := fun x hx => h x (List.mem_cons_of_mem c hx)
      have hcs : hexVal cs < 16 ^ cs.length := hexVal_lt hmem
      have hpos : 1 ≤ 16 ^ cs.length := Nat.one_le_pow _ _ (by norm_num)
      have ihh := ih hmem
      simp only [hexVal, List.length_cons, List.replicate_succ, List.cons.injEq, pow_succ]
      constructor
      · intro he
        have h15 : hexDigitVal c = 15 := by
          by_contra hne
          have h14 : hexDigitVal c ≤ 14 := by omega
          have : hexDigitVal c * 16 ^ cs.length ≤ 14 * 16 ^ cs.length :=
            Nat.mul_le_mul_right _ h14
          omega
        have hrest : hexVal cs = 16 ^ cs.length - 1 := by
          rw [h15] at he; omega
        exact ⟨(hexDigitVal_eq_fifteen (h c (List.mem_cons_self c cs))).mp h15,
               ihh.mp hrest⟩
      · rintro ⟨hcf, hrest⟩
        have h15 : hexDigitVal c = 15 :=
          (hexDigitVal_eq_fifteen (h c (List.mem_cons_self c cs))).mpr hcf
        have hrest' : hexVal cs = 16 ^ cs.length - 1 := ihh.mpr hrest
        rw [h15, hrest']
        omega

/-- Canonical ABI encoding of a `bool` word: 63 zero digits followed
by `'1'` for true or `'0'` for false. -/
def boolWord (b : Bool) : List Char :=
  List.replicate 63 '0' ++ [if b then '1' else '0']

end Api

namespace Api

theorem take_ten_of_append {sel : List Char} (h : sel.length = 10) (rest : List Char) :
    (sel ++ rest).take 10 = sel := by
  rw [← h]
  exact List.take_left sel rest

theorem hasLead_append_iff {p sel : List Char} (hp : p.length = 10)
    (hs : sel.length = 10) (rest : List Char) :
    hasLead p (sel ++ rest) = true ↔ sel = p := by
  rw [hasLead_iff, hp, take_ten_of_append hs]

/-- C7: `checkUnlimitedApprovals` fires on a well-formed ERC20
`approve` call exactly when the 64-digit hex amount encodes
`2^256 - 1`; on a well-formed `setApprovalForAll` call exactly when
the canonically encoded boolean parameter is true; and never on call
data carrying any other selector. -/
theorem c7_unlimited_approval_detection :
    (∀ sp amt : List Char, sp.length = 64 → amt.length = 64 →
      (∀ c ∈ amt, c ∈ hexChars) →
      (checkUnlimitedApprovals (approveSelector ++ sp ++ amt) = true ↔
        hexVal amt = 2 ^ 256 - 1))
    ∧ (∀ (op : List Char) (b : Bool), op.length = 64 →
      (checkUnlimitedApprovals (safaSelector ++ op ++ boolWord b) = true ↔ b = true))
    ∧ (∀ sel rest : List Char, sel.length = 10 →
      sel ≠ approveSelector → sel ≠ safaSelector →
      checkUnlimitedApprovals (sel ++ rest) = false) := by
  have happ : approveSelector.length = 10 := rfl
  have hsafa : safaSelector.length = 10 := rfl
  refine ⟨?_, ?_, ?_⟩
  · intro sp amt hsp hamt hhex
    have hlead : hasLead approveSelector (approveSelector ++ (sp ++ amt)) = true :=
      (hasLead_append_iff happ happ (sp ++ amt)).mpr rfl
    unfold checkUnlimitedApprovals
    rw [List.append_assoc, if_pos hlead]
    have hslice : ((approveSelector ++ (sp ++ amt)).drop 74).take 64 = amt := by
      rw [← List.append_assoc approveSelector sp amt]
      have hlen : (approveSelector ++ sp).length = 74 := by
        rw [List.length_append, happ, hsp]
      rw [← hlen, List.drop_left, ← hamt, List.take_length]
    rw [hslice, beq_iff_eq]
    have hmax : maxUint256Hex = List.replicate amt.length 'f' := by
      rw [hamt]; rfl
    rw [hmax, ← hexVal_eq_max_iff hhex, hamt]
    norm_num
  · intro op b hop
    have hbw : (boolWord b).length = 64 := by
      simp [boolWord]
    have hlead1 : hasLead approveSelector (safaSelector ++ (op ++ boolWord b)) = false := by
      rw [Bool.eq_false_iff]
      intro hcontra
      have := (hasLead_append_iff happ hsafa (op ++ boolWord b)).mp hcontra
      exact absurd this (by decide)
    have hlead2 : hasLead safaSelector (safaSelector ++ (op ++ boolWord b)) = true :=
      (hasLead_append_iff hsafa hsafa (op ++ boolWord b)).mpr rfl
    unfold checkUnlimitedApprovals
    rw [List.append_assoc,
        if_neg (by rw [hlead1]; exact Bool.false_ne_true), if_pos hlead2]
    have hslice : ((safaSelector ++ (op ++ boolWord b)).drop 74).take 64 = boolWord b := by
      rw [← List.append_assoc safaSelector op (boolWord b)]
      have hlen : (safaSelector ++ op).length = 74 := by
        rw [List.length_append, hsafa, hop]
      rw [← hlen, List.drop_left, ← hbw, List.take_length]
    rw [hslice]
    cases b <;> decide
  · intro sel rest hsel hne1 hne2
    have hlead1 : hasLead approveSelector (sel ++ rest) = false := by
      rw [Bool.eq_false_iff]
      intro hcontra
      exact hne1 ((hasLead_append_iff happ hsel rest).mp hcontra)
    have hlead2 : hasLead safaSelector (sel ++ rest) = false := by
      rw [Bool.eq_false_iff]
      intro hcontra
      exact hne2 ((hasLead_append_iff hsafa hsel rest).mp hcontra)
    unfold checkUnlimitedApprovals
    rw [if_neg (by rw [hlead1]; exact Bool.false_ne_true),
        if_neg (by rw [hlead2]; exact Bool.false_ne_true)]

/-- C7 witness: a concrete `approve` with the all-`f` amount fires the
detector, and the concrete max amount evaluates to `2^256 - 1`. -/
theorem c7_unlimited_approval_detection_witness :
    checkUnlimitedApprovals
      (approveSelector ++ List.replicate 64 '0' ++ List.replicate 64 'f') = true ∧
    checkUnlimitedApprovals
      (safaSelector ++ List.replicate 64 '0' ++ boolWord false) = false := by
  constructor
  · exact (c7_unlimited_approval_detection.1 (List.replicate 64 '0')
      (List.replicate 64 'f') (by decide) (by decide) (by decide)).mpr (by decide)
  · have := (c7_unlimited_approval_detection.2.1 (List.replicate 64 '0') false
      (by decide))
    rw [Bool.eq_false_iff]
    intro hcontra
    exact absurd (this.mp hcontra) (by decide)

end Api

namespace Api

theorem warnPrio_scam : warnPrio scamWarning = 0 := rfl

theorem warnPrio_honeypot : warnPrio honeypotWarning = 1 := rfl

theorem warnPrio_unlimited : warnPrio unlimitedApprovalWarning = 2 := rfl

theorem warnPrio_suspicious (rf : List String) :
    warnPrio (suspiciousCodeWarning rf) = 3 := rfl

theorem warnPrio_newContract : warnPrio newContractWarning = 4 := rfl

theorem sublist_cond {α : Type} (c : Prop) [Decidable c] (w : α) :
    List.Sublist (if c then [w] else []) [w] := by
  by_cases hc : c
  · rw [if_pos hc]
  · rw [if_neg hc]
    exact List.nil_sublist [w]

theorem sublist_cond_cons {α : Type} (c : Prop) [Decidable c] (w : α)
    {l m : List α} (h : List.Sublist l m) :
    List.Sublist ((if c then [w] else []) ++ l) (w :: m) := by
  by_cases hc : c
  · rw [if_pos hc]
    exact List.Sublist.cons₂ w h
  · rw [if_neg hc]
    exact List.Sublist.cons w h

/-- The warnings actually emitted form a sublist of the fixed
five-warning priority sequence. -/
theorem generateWarnings_sublist (d : AnalysisData) :
    List.Sublist (generateWarnings d)
      [scamWarning, honeypotWarning, unlimitedApprovalWarning,
       suspiciousCodeWarning d.ai.riskFactors, newContractWarning] := by
  unfold generateWarnings
  rw [List.append_assoc, List.append_assoc, List.append_assoc]
  exact sublist_cond_cons _ _ (sublist_cond_cons _ _ (sublist_cond_cons _ _
    (sublist_cond_cons _ _ (sublist_cond _ _))))

/-- The fixed five-warning sequence is strictly increasing in
priority. -/
theorem master_warnings_pairwise (rf : List String) :
    List.Pairwise (fun a b => warnPrio a < warnPrio b)
      [scamWarning, honeypotWarning, unlimitedApprovalWarning,
       suspiciousCodeWarning rf, newContractWarning] := by
  refine List.pairwise_cons.mpr ⟨?_, List.pairwise_cons.mpr ⟨?_,
    List.pairwise_cons.mpr ⟨?_, List.pairwise_cons.mpr ⟨?_,
    List.pairwise_cons.mpr ⟨?_, List.Pairwise.nil⟩⟩⟩⟩⟩ <;>
    intro b hb <;> fin_cases hb <;>
    simp [warnPrio_scam, warnPrio_honeypot, warnPrio_unlimited,
      warnPrio_suspicious, warnPrio_newContract]

/-- C9: the warning list is strictly ordered by the fixed priority
Scam, Honeypot, UnlimitedApproval, SuspiciousCode, NewContract
(the embedding is a pure function of the analysis record, so the
order in which upstream signals resolved cannot influence it), and in
particular with both a scam signal and an unlimited approval present
the scam warning strictly precedes the unlimited-approval warning. -/
theorem c9_warning_priority_order (d : AnalysisData) :
    List.Pairwise (fun a b => warnPrio a < warnPrio b) (generateWarnings d) ∧
    (d.isKnownScam = true → d.hasUnlimitedApprovals = true →
      ∃ i j : Nat, i < j ∧ (generateWarnings d).get? i = some scamWarning ∧
        (generateWarnings d).get? j = some unlimitedApprovalWarning) := by
  constructor
  · exact (master_warnings_pairwise d.ai.riskFactors).sublist
      (generateWarnings_sublist d)
  · intro hscam happr
    unfold generateWarnings
    rw [if_pos hscam, if_pos happr]
    by_cases hh : d.simulation.success = false ∧ errorMentionsRevert d.simulation.error = true
    · refine ⟨0, 2, by omega, rfl, ?_⟩
      rw [if_pos hh]
      rfl
    · refine ⟨0, 1, by omega, rfl, ?_⟩
      rw [if_neg hh]
      rfl

/-- C9 witness: with both signals set the first warning is the scam
warning and the second the unlimited-approval warning. -/
theorem c9_warning_priority_order_witness :
    ∃ i j : Nat, i < j ∧
      (generateWarnings
        { isKnownScam := true, hasSuspiciousCode := false,
          hasUnlimitedApprovals := true, isNewContract := false,
          simulation := { success := true, error := none },
          ai := defaultAIAnalysis }).get? i = some scamWarning ∧
      (generateWarnings
        { isKnownScam := true, hasSuspiciousCode := false,
          hasUnlimitedApprovals := true, isNewContract := false,
          simulation := { success := true, error := none },
          ai := defaultAIAnalysis }).get? j = some unlimitedApprovalWarning :=
  (c9_warning_priority_order _).2 rfl rfl

end Api

namespace Firewall

/-- Registry oracle: every target scores 60 (the quarantine band
under the contract's thresholds 50/75) and nothing is blacklisted. -/
def envQuarantine : Env :=
  { getRiskScore := fun _ => 60, isBlacklisted := fun _ => false,
    callSucceeds := fun _ _ _ => true }

/-- Registry oracle: every target scores 80 and nothing is
blacklisted (the score band the spec calls High, [75,89]). -/
def envCritical : Env :=
  { getRiskScore := fun _ => 80, isBlacklisted := fun _ => false,
    callSucceeds := fun _ _ _ => true }

/-- Registry oracle: every target scores 80 and is blacklisted (the
signals have worsened during quarantine). -/
def envWorsened : Env :=
  { getRiskScore := fun _ => 80, isBlacklisted := fun _ => true,
    callSucceeds := fun _ _ _ => true }

/-- Registry oracle: every target scores 10 but is blacklisted. -/
def envBlacklistLow : Env :=
  { getRiskScore := fun _ => 10, isBlacklisted := fun _ => true,
    callSucceeds := fun _ _ _ => true }

/-- Contract storage after sender 7 submits (target 3, empty payload,
5 wei, block time 1) under `envQuarantine`: the admission sits in
quarantine. -/
def stQueued : FirewallState := (recordPending initialState 7 3 [] 5 1 60).1

/-- The admission id of the quarantined submission in `stQueued`. -/
def keyQueued : TxKey := (recordPending initialState 7 3 [] 5 1 60).2

/-- C3 counterexample: a submission whose risk score is 80 — inside
the claim's [75,89] band — is immediately Blocked by the critical
branch (the contract's `CRITICAL_RISK_THRESHOLD` is 75, not 90), with
the value refunded; no `TransactionQueued` event is emitted, so the
admission never enters the claimed Quarantined state. -/
theorem c3_quarantine_band_counterexample :
    safeExecute envCritical initialState 7 5 3 [] 5 1 =
      .ok ((recordPending initialState 7 3 [] 5 1 80).1,
           (recordPending initialState 7 3 [] 5 1 80).2,
           [Effect.evBlocked (recordPending initialState 7 3 [] 5 1 80).2 7 3 80
              "Critical risk level",
            Effect.ethTransfer 7 5, Effect.threatBlocked 7]) ∧
    Effect.evQueued (recordPending initialState 7 3 [] 5 1 80).2 7 3 80 ∉
      [Effect.evBlocked (recordPending initialState 7 3 [] 5 1 80).2 7 3 80
         "Critical risk level",
       Effect.ethTransfer 7 5, Effect.threatBlocked 7] := by
  exact ⟨rfl, by decide⟩

end Firewall

namespace Firewall

/-- Storage written for the admission recorded by `recordPending`. -/
theorem recordPending_pending_at_key (st : FirewallState) (sender target : Nat)
    (data : List Nat) (value ts score : Nat) :
    ((recordPending st sender target data value ts score).1).pending
      ((recordPending st sender target data value ts score).2) =
      { target := target, data := data, value := value, timestamp := ts,
        executed := false, riskScore := score } := by
  simp [recordPending]

/-- C3 amended: a submission whose score lies in [50,74] — at least
`HIGH_RISK_THRESHOLD` (50) and below `CRITICAL_RISK_THRESHOLD` (75) —
is Quarantined (only `TransactionQueued` is emitted, the escrow is
held and the admission is not executed); releasing strictly before
`submittedAt + 24h` reverts with "Quarantine period not over"; and
releasing at or after that bound with the target still unblacklisted
and still below the critical threshold executes the original payload
against the target and marks the admission executed. -/
theorem c3_quarantine_lifecycle_amended (env : Env) (st : FirewallState)
    (sender msgValue target : Nat) (data : List Nat)
    (value ts now1 now2 caller : Nat) (st1 : FirewallState) (key : TxKey)
    (hRec : recordPending st sender target data value ts (env.getRiskScore target) =
      (st1, key))
    (hNB : st.emergencyBlocked sender = false) (hNM : st.emergencyMode = false)
    (hT : target ≠ 0) (hV : value ≤ msgValue)
    (hBl : env.isBlacklisted target = false)
    (hLo : HIGH_RISK_THRESHOLD ≤ env.getRiskScore target)
    (hHi : env.getRiskScore target < CRITICAL_RISK_THRESHOLD)
    (hTs : ts ≠ 0)
    (hEarly : now1 < ts + QUARANTINE_PERIOD)
    (hLate : ts + QUARANTINE_PERIOD ≤ now2) :
    safeExecute env st sender msgValue target data value ts =
      .ok (st1, key, [Effect.evQueued key sender target (env.getRiskScore target)]) ∧
    (st1.pending key).executed = false ∧
    executeQueuedTransaction env st1 caller now1 key =
      .error "Quarantine period not over" ∧
    executeQueuedTransaction env st1 caller now2 key =
      .ok (executeTransactionInternal env st1 caller key) ∧
    ((executeTransactionInternal env st1 caller key).1.pending key).executed = true ∧
    Effect.targetCall target data value ∈ (executeTransactionInternal env st1 caller key).2 := by
  have h1 : (recordPending st sender target data value ts (env.getRiskScore target)).1 = st1 := by
    rw [hRec]
  have h2 : (recordPending st sender target data value ts (env.getRiskScore target)).2 = key := by
    rw [hRec]
  subst h1
  subst h2
  have hpend := recordPending_pending_at_key st sender target data value ts
    (env.getRiskScore target)
  have hcrit : ¬ CRITICAL_RISK_THRESHOLD ≤ env.getRiskScore target := Nat.not_le.mpr hHi
  refine ⟨?_, ?_, ?_, ?_, ?_, ?_⟩
  · unfold safeExecute
    rw [if_neg (by rw [hNB]; exact Bool.false_ne_true),
        if_neg (by rw [hNM]; exact Bool.false_ne_true),
        if_neg hT, if_neg (show ¬ msgValue < value by omega)]
    dsimp only
    rw [if_neg (by rw [hBl]; exact Bool.false_ne_true), if_neg hcrit, if_pos hLo]
  · rw [hpend]
  · unfold executeQueuedTransaction
    dsimp only
    rw [hpend]
    rw [if_neg hTs, if_neg (by exact Bool.false_ne_true), if_pos hEarly]
  · unfold executeQueuedTransaction
    dsimp only
    rw [hpend]
    rw [if_neg hTs, if_neg (by exact Bool.false_ne_true),
        if_neg (show ¬ now2 < ts + QUARANTINE_PERIOD by omega)]
    rw [if_neg ?_]
    rintro (hb | hc)
    · dsimp only at hb
      rw [hBl] at hb
      exact Bool.false_ne_true hb
    · dsimp only at hc
      exact hcrit hc
  · unfold executeTransactionInternal
    dsimp only
    rw [if_pos rfl]
  · unfold executeTransactionInternal
    dsimp only
    rw [hpend]
    exact List.mem_append_left _ (List.mem_cons_self _ _)

end Firewall

namespace Firewall

/-- C3 witness: the concrete quarantine scenario (score 60, submission
at time 1): queued on submission, release refused at time 100,
executed at time 86401. -/
theorem c3_quarantine_lifecycle_amended_witness :
    safeExecute envQuarantine initialState 7 5 3 [] 5 1 =
      .ok (stQueued, keyQueued, [Effect.evQueued keyQueued 7 3 60]) ∧
    executeQueuedTransaction envQuarantine stQueued 9 100 keyQueued =
      .error "Quarantine period not over" ∧
    executeQueuedTransaction envQuarantine stQueued 9 86401 keyQueued =
      .ok (executeTransactionInternal envQuarantine stQueued 9 keyQueued) := by
  have h := c3_quarantine_lifecycle_amended envQuarantine initialState 7 5 3 [] 5 1
    100 86401 9 stQueued keyQueued rfl rfl rfl (by decide) (by decide) rfl
    (by decide) (by decide) (by decide) (by decide) (by decide)
  exact ⟨h.1, h.2.2.1, h.2.2.2.1⟩

/-- C4 counterexample: a submission to a blacklisted target with a low
score (10) is Blocked with the attached value refunded, but — contrary
to the claim — `recordThreatBlocked` is not invoked: the effect list
contains no threat-blocked entry. -/
theorem c4_blacklist_counter_counterexample :
    safeExecute envBlacklistLow initialState 7 5 3 [] 5 1 =
      .ok ((recordPending initialState 7 3 [] 5 1 10).1,
           (recordPending initialState 7 3 [] 5 1 10).2,
           [Effect.evBlocked (recordPending initialState 7 3 [] 5 1 10).2 7 3 10
              "Target blacklisted",
            Effect.ethTransfer 7 5]) ∧
    Effect.threatBlocked 7 ∉
      [Effect.evBlocked (recordPending initialState 7 3 [] 5 1 10).2 7 3 10
         "Target blacklisted",
       Effect.ethTransfer 7 5] :=
  ⟨rfl, by decide⟩

/-- C4 amended: a blacklisted target or a score at or above
`CRITICAL_RISK_THRESHOLD` Blocks the submission: the only effects are
the `TransactionBlocked` event and the refund of the attached value to
the sender (no target call is made), and the sender's threat-blocked
counter is incremented in the critical-score case only — the
blacklist branch returns before `recordThreatBlocked`. -/
theorem c4_blocked_submission_amended (env : Env) (st : FirewallState)
    (sender msgValue target : Nat) (data : List Nat) (value ts : Nat)
    (st1 : FirewallState) (key : TxKey)
    (hRec : recordPending st sender target data value ts (env.getRiskScore target) =
      (st1, key))
    (hNB : st.emergencyBlocked sender = false) (hNM : st.emergencyMode = false)
    (hT : target ≠ 0) (hV : value ≤ msgValue) :
    (env.isBlacklisted target = true →
      safeExecute env st sender msgValue target data value ts =
        .ok (st1, key,
          [Effect.evBlocked key sender target (env.getRiskScore target)
             "Target blacklisted"]
          ++ (if 0 < msgValue then [Effect.ethTransfer sender msgValue] else []))) ∧
    (env.isBlacklisted target = false →
     CRITICAL_RISK_THRESHOLD ≤ env.getRiskScore target →
      safeExecute env st sender msgValue target data value ts =
        .ok (st1, key,
          [Effect.evBlocked key sender target (env.getRiskScore target)
             "Critical risk level"]
          ++ (if 0 < msgValue then [Effect.ethTransfer sender msgValue] else [])
          ++ [Effect.threatBlocked sender])) := by
  have h1 : (recordPending st sender target data value ts (env.getRiskScore target)).1 = st1 := by
    rw [hRec]
  have h2 : (recordPending st sender target data value ts (env.getRiskScore target)).2 = key := by
    rw [hRec]
  subst h1
  subst h2
  constructor
  · intro hbl
    unfold safeExecute
    rw [if_neg (by rw [hNB]; exact Bool.false_ne_true),
        if_neg (by rw [hNM]; exact Bool.false_ne_true),
        if_neg hT, if_neg (show ¬ msgValue < value by omega)]
    dsimp only
    rw [if_pos hbl]
  · intro hbl hcrit
    unfold safeExecute
    rw [if_neg (by rw [hNB]; exact Bool.false_ne_true),
        if_neg (by rw [hNM]; exact Bool.false_ne_true),
        if_neg hT, if_neg (show ¬ msgValue < value by omega)]
    dsimp only
    rw [if_neg (by rw [hbl]; exact Bool.false_ne_true), if_pos hcrit]

/-- C4 witness: the two concrete blocked submissions — blacklisted
target (score 10, no counter) and critical score 80 (counter
recorded). -/
theorem c4_blocked_submission_amended_witness :
    safeExecute envBlacklistLow initialState 7 5 3 [] 5 1 =
      .ok ((recordPending initialState 7 3 [] 5 1 10).1,
           (recordPending initialState 7 3 [] 5 1 10).2,
           [Effect.evBlocked (recordPending initialState 7 3 [] 5 1 10).2 7 3 10
              "Target blacklisted",
            Effect.ethTransfer 7 5]) ∧
    safeExecute envCritical initialState 7 5 3 [] 5 1 =
      .ok ((recordPending initialState 7 3 [] 5 1 80).1,
           (recordPending initialState 7 3 [] 5 1 80).2,
           [Effect.evBlocked (recordPending initialState 7 3 [] 5 1 80).2 7 3 80
              "Critical risk level",
            Effect.ethTransfer 7 5, Effect.threatBlocked 7]) := by
  constructor
  · exact (c4_blocked_submission_amended envBlacklistLow initialState 7 5 3 [] 5 1
      ((recordPending initialState 7 3 [] 5 1 10).1)
      ((recordPending initialState 7 3 [] 5 1 10).2)
      rfl rfl rfl (by decide) (by decide)).1 rfl
  · exact (c4_blocked_submission_amended envCritical initialState 7 5 3 [] 5 1
      ((recordPending initialState 7 3 [] 5 1 80).1)
      ((recordPending initialState 7 3 [] 5 1 80).2)
      rfl rfl rfl (by decide) (by decide)).2 rfl (by decide)

/-- C1 (code bug): the quarantined admission of `stQueued`, released
at time 86401 while the target has become blacklisted, yields the
Blocked outcome and refunds the escrowed 5 wei — but the returned
storage is `stQueued` itself: the blocked branch of
`executeQueuedTransaction` never sets `executed`, so the admission is
not terminal, and the identical second invocation (the first
conjunct applies verbatim to the returned state) refunds the same
5 wei again. -/
theorem c1_blocked_release_not_terminal :
    executeQueuedTransaction envWorsened stQueued 9 86401 keyQueued =
      .ok (stQueued,
        [Effect.evBlocked keyQueued 9 3 80 "Risk increased during quarantine",
         Effect.ethTransfer 9 5]) ∧
    (stQueued.pending keyQueued).executed = false ∧
    safeExecute envQuarantine initialState 7 5 3 [] 5 1 =
      .ok (stQueued, keyQueued, [Effect.evQueued keyQueued 7 3 60]) :=
  ⟨rfl, rfl, rfl⟩

/-- Storage after `emergencyCancel` marks the `stQueued` admission
executed. -/
def stCancelled : FirewallState :=
  { stQueued with pending := fun k => if k = keyQueued then
      { stQueued.pending keyQueued with executed := true } else stQueued.pending k }

/-- C2 (code bug): `emergencyCancel`, called on the quarantined
admission of `stQueued` (submitted by sender 7, target 3) by the
unrelated address 999, transfers the escrowed 5 wei to 999 — neither
the original submitting sender nor the target — because the contract
refunds `msg.sender` and never recorded the submitter. -/
theorem c2_escrow_to_arbitrary_caller :
    emergencyCancel envQuarantine stQueued 999 keyQueued =
      .ok (stCancelled,
        [Effect.ethTransfer 999 5,
         Effect.evBlocked keyQueued 999 3 60 "Emergency cancellation",
         Effect.threatBlocked 999]) ∧
    keyQueued.sender = 7 ∧ (999 : Nat) ≠ 7 ∧ (999 : Nat) ≠ 3 :=
  ⟨rfl, rfl, by decide, by decide⟩

end Firewall

namespace Firewall

/-- A batch with at least one item reverts in its first loop
iteration: the guarded self-call into `safeExecute` hits the
already-taken reentrancy guard. -/
theorem batchLoop_cons_reverts (env : Env) (fw ts : Nat) (st : FirewallState)
    (t : Nat) (rest : List Nat) (d : List Nat) (ds : List (List Nat))
    (v : Nat) (vs : List Nat) :
    batchLoop env fw ts st (t :: rest) (d :: ds) (v :: vs) =
      .error "ReentrancyGuard: reentrant call" := by
  simp [batchLoop, safeExecuteWithGuard]

/-- Every `batchExecute` call that passes the argument-validation
guards and carries at least one item reverts with the reentrancy
guard's error: the per-item admissions never happen. -/
theorem batchExecute_nonempty_reverts (env : Env) (st : FirewallState)
    (fw sender msgValue : Nat) (t : Nat) (rest : List Nat) (d : List Nat)
    (ds : List (List Nat)) (v : Nat) (vs : List Nat) (ts : Nat)
    (hNB : st.emergencyBlocked sender = false) (hNM : st.emergencyMode = false)
    (hLen : (t :: rest).length = (d :: ds).length ∧
      (d :: ds).length = (v :: vs).length)
    (hCap : (t :: rest).length ≤ 10) (hVal : (v :: vs).sum ≤ msgValue) :
    batchExecute env st fw sender msgValue (t :: rest) (d :: ds) (v :: vs) ts =
      .error "ReentrancyGuard: reentrant call" := by
  unfold batchExecute
  rw [if_neg (by rw [hNB]; exact Bool.false_ne_true),
      if_neg (by rw [hNM]; exact Bool.false_ne_true),
      if_neg (not_not_intro hLen),
      if_neg (Nat.not_lt.mpr hCap),
      if_neg (Nat.not_lt.mpr hVal)]
  exact batchLoop_cons_reverts env fw ts st t rest d ds v vs

/-- C10 (code bug): `batchExecute` (source line 166) and `safeExecute`
(source line 60) are both `nonReentrant`, and `batchExecute` admits
items only through the external self-call `this.safeExecute`, made
while its own guard is still taken — so the self-call reverts, the
revert bubbles, and every batch with at least one item reverts with
"ReentrancyGuard: reentrant call".  The per-item admissions the claim
describes (ids recorded under the firewall's address, refunds paid to
the firewall, nonces consumed from the firewall's counter) are
unreachable: concretely, a one-item 3-wei batch submitted by user 7
to the firewall at address 42 reverts, while the empty batch — which
admits nothing — succeeds with no ids and no effects. -/
theorem c10_batch_reverts_on_guarded_self_call :
    batchExecute envBlacklistLow initialState 42 7 3 [5] [[]] [3] 1 =
      .error "ReentrancyGuard: reentrant call" ∧
    batchExecute envBlacklistLow initialState 42 7 3 [] [] [] 1 =
      .ok (initialState, [], []) :=
  ⟨rfl, rfl⟩

end Firewall
